import Mathlib

/-!
Verification of the SproutCore 2.0 view layer (`SC.View`).

This file is a shallow embedding of the view code: class-name bindings
(`_classStringForProperty`, `_applyClassNameBindings` and the observer
closure it installs), the element lifecycle (`createElement`,
`destroyElement`, `_notifyDidCreateElement`, `_notifyWillDestroyElement`,
`renderToBuffer`, `renderChildViews`), the global view registry
(`SC.View.views` maintained by `init` and `destroy`), and the array
copies made by `init`.

JavaScript values flowing through the class-binding code are modelled by
`JSVal`; views are modelled as finite trees; imperative effects (DOM
operations, lifecycle callbacks) are modelled as event traces; the
mutable registry and the heap of arrays are threaded explicitly.
-/

namespace SCView

/-- JavaScript values as they flow through `_classStringForProperty`:
booleans (`YES`/`NO`), `undefined`, `null`, strings and numbers. -/
inductive JSVal where
  | bool (b : Bool)
  | undefined
  | null
  | str (s : String)
  | num (n : Int)
  deriving DecidableEq, Repr

/-- JavaScript truthiness, as used by `if (oldClass)`, `if (newClass)` and
`if (dasherizedClass)` in the view code: `false`, `undefined`, `null`,
the empty string and `0` are falsy. -/
def JSVal.truthy : JSVal → Bool
  | .bool b => b
  | .undefined => false
  | .null => false
  | .str s => s ≠ ""
  | .num n => n ≠ 0

/-- String coercion applied by jQuery `addClass`/`removeClass` to the
value handed to them. -/
def JSVal.toClassString : JSVal → String
  | .bool b => if b then "true" else "false"
  | .undefined => "undefined"
  | .null => "null"
  | .str s => s
  | .num n => toString n

/-- Helper for `splitOnChar`: walks the characters, accumulating the
current segment in reverse. -/
def splitOnCharAux (sep : Char) : List Char → List Char → List String
  | [], acc => [String.mk acc.reverse]
  | c :: rest, acc =>
    if c = sep then String.mk acc.reverse :: splitOnCharAux sep rest []
    else splitOnCharAux sep rest (c :: acc)

/-- JavaScript `String.prototype.split` with a single-character
separator, as used by `property.split(':')` and `property.split('.')`:
the list of segments between occurrences of the separator (always
non-empty; `''.split(sep)` is `['']`). -/
def splitOnChar (sep : Char) (s : String) : List String :=
  splitOnCharAux sep s.data []

/-- The property-path part of a `classNameBindings` entry: the text before
the first `:` (`property = split[0]` in `_classStringForProperty`). -/
def bindingProperty (prop : String) : String :=
  (splitOnChar ':' prop).headD ""

/-- The optional class-name override of a `classNameBindings` entry:
`split[1]` in `_classStringForProperty`, used only when truthy (`if
(className)`), so an empty override counts as absent. -/
def bindingClassName (prop : String) : Option String :=
  match (splitOnChar ':' prop)[1]? with
  | some c => if c = "" then none else some c
  | none => none

/-- `get(property.split('.'), 'lastObject')`: the last `.`-separated
segment of a property path. -/
def lastSegment (path : String) : String :=
  (splitOnChar '.' path).getLastD ""

/-- `SC.View.prototype._classStringForProperty` (part_000 lines 252-278),
parameterised by `dash` (the external `SC.String.dasherize`) and by
`getPath` (the external `SC.getPath(this, property)` lookup).
Returns `some v` where the function returns a value and `none` where it
returns `null`:
a strictly-`true` value maps to the override class or the dasherized last
path segment, a value that is not `true`, `false`, `undefined` or `null`
is returned as is, and `false`/`undefined`/`null` map to `null`. -/
def classStringForProperty (dash : String → String) (getPath : String → JSVal)
    (prop : String) : Option JSVal :=
  let val := getPath (bindingProperty prop)
  if val = JSVal.bool true then
    some (JSVal.str ((bindingClassName prop).getD
      (dash (lastSegment (bindingProperty prop)))))
  else if val ≠ JSVal.bool false ∧ val ≠ JSVal.undefined ∧ val ≠ JSVal.null then
    some val
  else
    none

/-- Result of `_applyClassNameBindings`: the property paths on which
`SC.addObserver` was called (in order, one call per iteration of the
`forEach`), the resulting `classNames` array, and the `oldClass`
closure variable captured by each installed observer. -/
structure ApplyResult where
  observers : List String
  classNames : List JSVal
  oldClasses : List (Option JSVal)
  deriving DecidableEq, Repr

/-- `SC.View.prototype._applyClassNameBindings` (part_000 lines 186-241):
for each entry of `classNameBindings`, in order, it calls
`SC.addObserver(this, property, observer)` on the raw entry, computes
`_classStringForProperty`, and when that is truthy pushes it onto
`classNames` and saves it as the observer's `oldClass`. -/
def applyClassNameBindings (dash : String → String) (getPath : String → JSVal) :
    List String → List JSVal → ApplyResult
  | [], cns => ⟨[], cns, []⟩
  | b :: bs, cns =>
    let d := classStringForProperty dash getPath b
    let step : List JSVal × Option JSVal :=
      match d with
      | some c => if c.truthy then (cns ++ [c], some c) else (cns, none)
      | none => (cns, none)
    let rest := applyClassNameBindings dash getPath bs step.1
    ⟨b :: rest.observers, rest.classNames, step.2 :: rest.oldClasses⟩

/-- jQuery `elem.removeClass(c)`: removes every occurrence of the class
token from the element's class list. -/
def removeClass (cs : List String) (c : JSVal) : List String :=
  cs.filter (· ≠ c.toClassString)

/-- jQuery `elem.addClass(c)`: appends the class token unless it is
already present. -/
def addClass (cs : List String) (c : JSVal) : List String :=
  if c.toClassString ∈ cs then cs else cs ++ [c.toClassString]

/-- One firing of the observer closure installed by
`_applyClassNameBindings` (part_000 lines 205-223). `newClass` is the
value of `_classStringForProperty` at the new property value, `oldClass`
the closure variable, `cs` the element's current class list. Returns the
new `oldClass` and the new class list:
`if (oldClass) elem.removeClass(oldClass); if (newClass) { elem.addClass(newClass);
oldClass = newClass; } else { oldClass = null; }`. -/
def observerStep (newClass : Option JSVal) (oldClass : Option JSVal)
    (cs : List String) : Option JSVal × List String :=
  let cs1 :=
    match oldClass with
    | some c => if c.truthy then removeClass cs c else cs
    | none => cs
  match newClass with
  | some c => if c.truthy then (some c, addClass cs1 c) else (none, cs1)
  | none => (none, cs1)

/-- State of one view for the observer-lifecycle model: its configured
`classNameBindings`, the set of observers currently registered on it via
`SC.addObserver`, and whether its element exists. -/
structure ObsView where
  bindings : List String
  observers : List String
  hasElement : Bool
  deriving DecidableEq, Repr

/-- `createElement` as it affects observers (part_000 lines 440-453):
if the element already exists it returns unchanged; otherwise it renders
to a buffer, which runs `applyAttributesToBuffer` and hence
`_applyClassNameBindings`, registering one observer per
`classNameBindings` entry, and sets the element. -/
def createElementObs (dash : String → String) (getPath : String → JSVal)
    (v : ObsView) : ObsView :=
  if v.hasElement then v
  else
    { v with
      observers := v.observers ++
        (applyClassNameBindings dash getPath v.bindings []).observers,
      hasElement := true }

/-- `destroyElement` as it affects observers (part_000 lines 492-505):
it fires `willDestroyElement` callbacks, removes the DOM element and sets
`element` to `null`. No call to `SC.removeObserver` appears there (or
anywhere in the file), so the `observers` field is untouched. -/
def destroyElementObs (v : ObsView) : ObsView :=
  if v.hasElement then { v with hasElement := false } else v

/-! ### View trees and the element lifecycle -/

mutual
/-- A view of the hierarchy: `elementId`, `tagName`, `isDestroyed` flag
and the ordered `childViews` array. -/
inductive View where
  | node (eid : Nat) (tag : String) (destroyed : Bool) (children : ViewList)
inductive ViewList where
  | nil
  | cons (head : View) (tail : ViewList)
end

/-- The view's `elementId`. -/
def View.eid : View → Nat
  | .node e _ _ _ => e

/-- The view's `tagName`. -/
def View.tag : View → String
  | .node _ t _ _ => t

/-- The view's `isDestroyed` flag. -/
def View.destroyed : View → Bool
  | .node _ _ d _ => d

/-- The view's `childViews` array. -/
def View.children : View → ViewList
  | .node _ _ _ cs => cs

/-- Conversion of the child list to a plain `List`. -/
def ViewList.toList : ViewList → List View
  | .nil => []
  | .cons c cs => c :: cs.toList

/-- Observable steps taken by the element lifecycle: render-buffer calls,
setting the view's element, DOM removal, and the `didCreateElement` /
`willDestroyElement` lifecycle callbacks, each tagged with the
`elementId` of the view it happened on. -/
inductive Event where
  | bufBegin (tag : String)
  | bufEnd
  | renderView (eid : Nat)
  | setElement (eid : Nat)
  | domRemove (eid : Nat)
  | didCreateElement (eid : Nat)
  | willDestroyElement (eid : Nat)
  deriving DecidableEq, Repr

mutual
/-- `_notifyDidCreateElement` (part_000 lines 467-473): invokes
`didCreateElement` on the receiver, then recurses into each child view
via `forEachChildView` (ascending index order). -/
def notifyDidCreateElement : View → List Event
  | .node e _ _ cs => Event.didCreateElement e :: notifyDidCreateElementL cs
/-- The `forEachChildView` loop of `_notifyDidCreateElement`. -/
def notifyDidCreateElementL : ViewList → List Event
  | .nil => []
  | .cons c cs => notifyDidCreateElement c ++ notifyDidCreateElementL cs
end

mutual
/-- `_notifyWillDestroyElement` (part_000 lines 519-525): invokes
`willDestroyElement` on the receiver, then recurses into each child view
via `forEachChildView` (ascending index order). -/
def notifyWillDestroyElement : View → List Event
  | .node e _ _ cs => Event.willDestroyElement e :: notifyWillDestroyElementL cs
/-- The `forEachChildView` loop of `_notifyWillDestroyElement`. -/
def notifyWillDestroyElementL : ViewList → List Event
  | .nil => []
  | .cons c cs => notifyWillDestroyElement c ++ notifyWillDestroyElementL cs
end

mutual
/-- `renderToBuffer` (part_000 lines 568-586) on the default `render`
path (no template, so `render` leaves `_didRenderChildViews` unset and
`renderChildViews` runs): `applyAttributesToBuffer` and `render` are the
`renderView` event, then the child views are rendered. -/
def renderToBuffer : View → List Event
  | .node e _ _ cs => Event.renderView e :: renderChildViews cs
/-- `renderChildViews` (part_000 lines 620-630): for each child view, in
`childViews` order, `buffer.begin(get(view, 'tagName'))`, then the
child's `renderToBuffer`, then `buffer.end()`. -/
def renderChildViews : ViewList → List Event
  | .nil => []
  | .cons c cs =>
    Event.bufBegin c.tag :: renderToBuffer c ++ [Event.bufEnd] ++ renderChildViews cs
end

/-- `createElement` (part_000 lines 440-453): if the view already has an
element it returns the receiver unchanged; otherwise it renders to a
fresh buffer, sets `element` to the buffer's materialized element, and
runs `_notifyDidCreateElement`. Returns the new element-presence flag
and the event trace. -/
def createElement (hasElem : Bool) (t : View) : Bool × List Event :=
  if hasElem then (hasElem, [])
  else
    (true, renderToBuffer t ++ Event.setElement t.eid :: notifyDidCreateElement t)

/-- `destroyElement` (part_000 lines 492-505): if the view has an
element, it runs `_notifyWillDestroyElement`, removes the element from
the DOM and sets `element` to `null`; otherwise it does nothing.
Returns the new element-presence flag and the event trace. -/
def destroyElement (hasElem : Bool) (t : View) : Bool × List Event :=
  if hasElem then
    (false, notifyWillDestroyElement t ++ [Event.domRemove t.eid])
  else (hasElem, [])

/-- Render-buffer nesting check: scans a trace keeping the `begin`/`end`
depth; an `end` at depth zero is unbalanced, and the scan must finish at
depth zero. -/
def nestOk : List Event → Nat → Bool
  | [], d => d == 0
  | Event.bufBegin _ :: es, d => nestOk es (d + 1)
  | Event.bufEnd :: _, 0 => false
  | Event.bufEnd :: es, d + 1 => nestOk es d
  | Event.renderView _ :: es, d => nestOk es d
  | Event.setElement _ :: es, d => nestOk es d
  | Event.domRemove _ :: es, d => nestOk es d
  | Event.didCreateElement _ :: es, d => nestOk es d
  | Event.willDestroyElement _ :: es, d => nestOk es d

/-- The `elementId`s of the `willDestroyElement` events of a trace, in
order. -/
def wdIds (es : List Event) : List Nat :=
  es.filterMap fun e =>
    match e with
    | Event.willDestroyElement i => some i
    | _ => none

/-- The `elementId`s of the `didCreateElement` events of a trace, in
order. -/
def dcIds (es : List Event) : List Nat :=
  es.filterMap fun e =>
    match e with
    | Event.didCreateElement i => some i
    | _ => none

/-- The `elementId`s of the `renderView` events of a trace, in order. -/
def rvIds (es : List Event) : List Nat :=
  es.filterMap fun e =>
    match e with
    | Event.renderView i => some i
    | _ => none

/-! ### The global view registry `SC.View.views` -/

/-- The registry update of `init` (part_000 line 725):
`SC.View.views[get(this, 'elementId')] = this`. The registry is the set
of `elementId` keys of `SC.View.views`; assigning a key makes it
present. -/
def initRegistry (reg : List Nat) (eid : Nat) : List Nat :=
  if eid ∈ reg then reg else reg ++ [eid]

mutual
/-- `destroy` (part_000 lines 791-812), threading the registry, the
receiver's element-presence flag and the lifecycle event trace.
If `isDestroyed` is set it returns the receiver immediately. Otherwise
it runs `destroyElement` (which fires `willDestroyElement` on the
subtree and removes the DOM node when an element exists), destroys the
children via `mutateChildViews` (descending index order, each child
having no element of its own any more since the subtree's DOM is gone
and each removing itself from `childViews`), deletes the receiver's
`elementId` from `SC.View.views`, and `_super` sets `isDestroyed`. -/
def destroyView (reg : List Nat) (hasElem : Bool) :
    View → List Nat × Bool × View × List Event
  | .node e tg d cs =>
    if d then (reg, hasElem, .node e tg d cs, [])
    else
      let elemEvents :=
        if hasElem then
          notifyWillDestroyElement (.node e tg d cs) ++ [Event.domRemove e]
        else []
      let reg1 := destroyChildrenRev reg cs
      (reg1.filter (· ≠ e), false, .node e tg true .nil, elemEvents)
/-- The `mutateChildViews` loop of `destroy`: `while (--idx >= 0)`
destroys the children from the last index down to the first. -/
def destroyChildrenRev (reg : List Nat) : ViewList → List Nat
  | .nil => reg
  | .cons c cs => (destroyView (destroyChildrenRev reg cs) false c).1
end

/-! ### The array copies made by `init` -/

/-- A heap of arrays, addressed by position; `h[a]?` reads the array at
address `a`. -/
def allocArr (h : List (List String)) (xs : List String) :
    List (List String) × Nat :=
  (h ++ [xs], h.length)

/-- The addresses of the three per-class arrays of a view object:
`childViews`, `classNameBindings` and `classNames`. -/
structure ProtoArrays where
  childViews : Nat
  classNameBindings : Nat
  classNames : Nat
  deriving DecidableEq, Repr

/-- The array set-up of `init` (part_000 lines 728-730):
`this.childViews = get(this, 'childViews').slice();` and likewise for
`classNameBindings` and `classNames`. Each `slice()` allocates a fresh
array holding a copy of the prototype array's contents, and the instance
fields are repointed at the fresh arrays. -/
def initArrays (h : List (List String)) (p : ProtoArrays) :
    List (List String) × ProtoArrays :=
  let a1 := allocArr h (h[p.childViews]?.getD [])
  let a2 := allocArr a1.1 (a1.1[p.classNameBindings]?.getD [])
  let a3 := allocArr a2.1 (a2.1[p.classNames]?.getD [])
  (a3.1, ⟨a1.2, a2.2, a3.2⟩)

/-- In-place `push` onto the array at address `a`. -/
def pushArr (h : List (List String)) (a : Nat) (x : String) :
    List (List String) :=
  h.set a ((h[a]?.getD []) ++ [x])

/-- A concrete child view used to exercise the lifecycle order. -/
def demoChild : View := .node 2 "span" false .nil

/-- A concrete parent view with one child view. -/
def demoParent : View := .node 1 "div" false (.cons demoChild .nil)

/-! ### Theorems -/

/-- C1: the spec requires `destroyElement` to remove every observer that
`_applyClassNameBindings` registered, but the code contains no
`SC.removeObserver` call: creating the element of a view with
`classNameBindings = ['isUrgent']` registers one observer, and after
`destroyElement` the element is gone while the observer is still
registered. -/
theorem C1_observer_leak :
    destroyElementObs (createElementObs (fun s => s) (fun _ => JSVal.bool true)
        ⟨["isUrgent"], [], false⟩) =
      ⟨["isUrgent"], ["isUrgent"], false⟩ := by
  decide

/-- C9: `destroy` is idempotent: on a view whose `isDestroyed` flag is
set, `destroy` returns the receiver immediately, leaving the registry,
the element-presence flag and the view unchanged and firing no lifecycle
events. -/
theorem C9_destroy_idempotent (reg : List Nat) (he : Bool) (t : View)
    (h : t.destroyed = true) :
    destroyView reg he t = (reg, he, t, []) := by
  cases t with
  | node e tg d cs =>
    simp only [View.destroyed] at h
    subst h
    simp [destroyView]

/-- Witness for C9 at a concrete destroyed view. -/
theorem C9_destroy_idempotent_witness :
    destroyView [3] true (View.node 3 "div" true ViewList.nil) =
      ([3], true, View.node 3 "div" true ViewList.nil, []) :=
  C9_destroy_idempotent [3] true (View.node 3 "div" true ViewList.nil) rfl

/-- C10: on a view whose element is absent, `destroyElement` is a
no-op: it fires no `willDestroyElement` callbacks, removes nothing from
the DOM (the event trace is empty), and leaves the element absent. -/
theorem C10_destroyElement_noop (t : View) :
    destroyElement false t = (false, []) := rfl

/-- C3: `init` adds the view's `elementId` to the `SC.View.views`
registry, and `destroy` (on a not-yet-destroyed view) removes it: after
`destroy` returns, the entry is gone. -/
theorem C3_registry_lifecycle (reg : List Nat) (he : Bool) (t : View)
    (h : t.destroyed = false) :
    t.eid ∈ initRegistry reg t.eid ∧
    t.eid ∉ (destroyView (initRegistry reg t.eid) he t).1 := by
  constructor
  · unfold initRegistry
    split
    · assumption
    · simp
  · cases t with
    | node e tg d cs =>
      simp only [View.destroyed] at h
      subst h
      simp [destroyView, View.eid, List.mem_filter]

/-- Witness for C3 at a concrete live view. -/
theorem C3_registry_lifecycle_witness :
    (5 : Nat) ∈ initRegistry [] 5 ∧
    (5 : Nat) ∉
      (destroyView (initRegistry [] 5) true (View.node 5 "div" false ViewList.nil)).1 :=
  C3_registry_lifecycle [] true (View.node 5 "div" false ViewList.nil) rfl

/-- `wdIds` on a trace starting with a `willDestroyElement` event. -/
theorem wdIds_cons_wd (e : Nat) (es : List Event) :
    wdIds (Event.willDestroyElement e :: es) = e :: wdIds es := rfl

/-- `dcIds` on a trace starting with a `didCreateElement` event. -/
theorem dcIds_cons_dc (e : Nat) (es : List Event) :
    dcIds (Event.didCreateElement e :: es) = e :: dcIds es := rfl

/-- `rvIds` on a trace starting with a `renderView` event. -/
theorem rvIds_cons_rv (e : Nat) (es : List Event) :
    rvIds (Event.renderView e :: es) = e :: rvIds es := rfl

/-- `rvIds` ignores a leading buffer `begin`. -/
theorem rvIds_cons_bufBegin (tg : String) (es : List Event) :
    rvIds (Event.bufBegin tg :: es) = rvIds es := rfl

/-- `wdIds` distributes over concatenation of traces. -/
theorem wdIds_append (a b : List Event) :
    wdIds (a ++ b) = wdIds a ++ wdIds b := by
  simp [wdIds, List.filterMap_append]

/-- `dcIds` distributes over concatenation of traces. -/
theorem dcIds_append (a b : List Event) :
    dcIds (a ++ b) = dcIds a ++ dcIds b := by
  simp [dcIds, List.filterMap_append]

/-- `rvIds` distributes over concatenation of traces. -/
theorem rvIds_append (a b : List Event) :
    rvIds (a ++ b) = rvIds a ++ rvIds b := by
  simp [rvIds, List.filterMap_append]

/-- The child loop of `_notifyDidCreateElement` concatenates the
children's traces in `childViews` order. -/
theorem notifyDidCreateElementL_eq : ∀ cs : ViewList,
    notifyDidCreateElementL cs = (cs.toList.map notifyDidCreateElement).flatten
  | .nil => rfl
  | .cons c cs => by
    rw [notifyDidCreateElementL, notifyDidCreateElementL_eq cs]
    simp [ViewList.toList]

mutual
/-- `willDestroyElement` callbacks fire on exactly the views, and in
exactly the order, in which `didCreateElement` callbacks fired. -/
theorem wdIds_eq_dcIds : ∀ t : View,
    wdIds (notifyWillDestroyElement t) = dcIds (notifyDidCreateElement t)
  | .node e tg d cs => by
    rw [notifyWillDestroyElement, notifyDidCreateElement, wdIds_cons_wd,
      dcIds_cons_dc, wdIds_eq_dcIdsL cs]
/-- List version of `wdIds_eq_dcIds`. -/
theorem wdIds_eq_dcIdsL : ∀ cs : ViewList,
    wdIds (notifyWillDestroyElementL cs) = dcIds (notifyDidCreateElementL cs)
  | .nil => rfl
  | .cons c cs => by
    rw [notifyWillDestroyElementL, notifyDidCreateElementL, wdIds_append,
      dcIds_append, wdIds_eq_dcIds c, wdIds_eq_dcIdsL cs]
end

mutual
/-- `renderToBuffer` renders exactly the views on which
`didCreateElement` will fire, in the same order. -/
theorem rvIds_eq_dcIds : ∀ t : View,
    rvIds (renderToBuffer t) = dcIds (notifyDidCreateElement t)
  | .node e tg d cs => by
    rw [renderToBuffer, notifyDidCreateElement, rvIds_cons_rv, dcIds_cons_dc,
      rvIds_eq_dcIdsL cs]
/-- List version of `rvIds_eq_dcIds`. -/
theorem rvIds_eq_dcIdsL : ∀ cs : ViewList,
    rvIds (renderChildViews cs) = dcIds (notifyDidCreateElementL cs)
  | .nil => rfl
  | .cons c cs => by
    rw [renderChildViews, notifyDidCreateElementL, rvIds_append, rvIds_append,
      rvIds_cons_bufBegin, rvIds_eq_dcIds c, rvIds_eq_dcIdsL cs, dcIds_append]
    simp [rvIds]
end

/-- C2 fails on the code: `demoParent` is a view whose only child is
`demoChild`, yet in the `_notifyWillDestroyElement` trace the child's
callback does not precede the parent's (the parent's fires first). -/
theorem C2_willDestroy_not_bottom_up :
    demoParent.children.toList.map View.eid = [demoChild.eid] ∧
    ¬ (notifyWillDestroyElement demoParent).indexOf
        (Event.willDestroyElement demoChild.eid) <
      (notifyWillDestroyElement demoParent).indexOf
        (Event.willDestroyElement demoParent.eid) := by
  decide

/-- C2 amended: `_notifyWillDestroyElement` fires top-down, the same
order as creation, not the reverse: the parent's `willDestroyElement`
is the first event of the trace, and the callbacks fire on exactly the
views, and in exactly the order, in which `didCreateElement` fired. -/
theorem C2_willDestroy_top_down (t : View) :
    (notifyWillDestroyElement t).head? =
      some (Event.willDestroyElement t.eid) ∧
    wdIds (notifyWillDestroyElement t) = dcIds (notifyDidCreateElement t) := by
  refine ⟨?_, wdIds_eq_dcIds t⟩
  cases t with
  | node e tg d cs => rfl

/-- C4: on a view with no element, `createElement` renders the view to a
buffer, sets the element, and then runs the `didCreateElement`
callbacks; the callbacks fire on the view itself first and then on each
child's subtree in `childViews` order; and the rendering covered exactly
the views the callbacks fire on, in the same order. -/
theorem C4_createElement_order (t : View) :
    createElement false t =
      (true, renderToBuffer t ++
        Event.setElement t.eid :: notifyDidCreateElement t) ∧
    notifyDidCreateElement t =
      Event.didCreateElement t.eid ::
        (t.children.toList.map notifyDidCreateElement).flatten ∧
    rvIds (renderToBuffer t) = dcIds (notifyDidCreateElement t) := by
  refine ⟨rfl, ?_, rvIds_eq_dcIds t⟩
  cases t with
  | node e tg d cs =>
    rw [notifyDidCreateElement, notifyDidCreateElementL_eq]
    rfl

/-- `renderChildViews` is the concatenation, in `childViews` order, of
one `begin`/subtree/`end` block per child. -/
theorem renderChildViews_eq : ∀ cs : ViewList,
    renderChildViews cs =
      (cs.toList.map fun c =>
        Event.bufBegin c.tag :: renderToBuffer c ++ [Event.bufEnd]).flatten
  | .nil => rfl
  | .cons c cs => by
    rw [renderChildViews, renderChildViews_eq cs]
    simp [ViewList.toList]

mutual
/-- A subtree's render trace leaves the buffer depth unchanged. -/
theorem nestOk_renderToBuffer : ∀ (t : View) (rest : List Event) (d : Nat),
    nestOk (renderToBuffer t ++ rest) d = nestOk rest d
  | .node e tg dd cs, rest, d => by
    rw [renderToBuffer, List.cons_append, nestOk]
    exact nestOk_renderChildViews cs rest d
/-- The child blocks of `renderChildViews` leave the buffer depth
unchanged: each `begin` has a matching `end` at the same depth. -/
theorem nestOk_renderChildViews : ∀ (cs : ViewList) (rest : List Event) (d : Nat),
    nestOk (renderChildViews cs ++ rest) d = nestOk rest d
  | .nil, rest, d => rfl
  | .cons c cs, rest, d => by
    rw [renderChildViews]
    simp only [List.cons_append, List.append_assoc]
    rw [nestOk, nestOk_renderToBuffer c _ (d + 1), List.nil_append, nestOk]
    exact nestOk_renderChildViews cs rest d
end

/-- C7: `renderChildViews` emits, for each child view in `childViews`
order, a `begin` with the child's `tagName`, then the child's rendered
subtree, then the matching `end`; and the whole trace is
balanced — scanning it from any starting point returns to the starting
depth, in particular from depth 0 it never underflows and ends at 0. -/
theorem C7_renderChildViews_nesting (cs : ViewList) :
    renderChildViews cs =
      (cs.toList.map fun c =>
        Event.bufBegin c.tag :: renderToBuffer c ++ [Event.bufEnd]).flatten ∧
    nestOk (renderChildViews cs) 0 = true := by
  refine ⟨renderChildViews_eq cs, ?_⟩
  have h := nestOk_renderChildViews cs [] 0
  rw [List.append_nil] at h
  rw [h]
  rfl

/-- C5: `_classStringForProperty` maps a property whose value is
(strictly) `true` to the override class given after `:` or, absent one,
the dasherized last segment of the path; maps any value that is not
`true`, `false`, `undefined` or `null` to that value itself; and maps
`false`, `undefined` and `null` to `null` (no class). -/
theorem C5_classString_cases (dash : String → String) (getPath : String → JSVal)
    (prop : String) :
    (getPath (bindingProperty prop) = JSVal.bool true →
      classStringForProperty dash getPath prop =
        some (JSVal.str ((bindingClassName prop).getD
          (dash (lastSegment (bindingProperty prop)))))) ∧
    (∀ v, getPath (bindingProperty prop) = v →
      v ≠ JSVal.bool true → v ≠ JSVal.bool false →
      v ≠ JSVal.undefined → v ≠ JSVal.null →
      classStringForProperty dash getPath prop = some v) ∧
    ((getPath (bindingProperty prop) = JSVal.bool false ∨
      getPath (bindingProperty prop) = JSVal.undefined ∨
      getPath (bindingProperty prop) = JSVal.null) →
      classStringForProperty dash getPath prop = none) := by
  unfold classStringForProperty
  refine ⟨fun h => by simp [h], fun v hv h1 h2 h3 h4 => ?_, fun h => ?_⟩
  · rw [hv]
    simp [h1, h2, h3, h4]
  · rcases h with h | h | h <;> rw [h] <;> simp

/-- Witness for C5: the three branches at concrete inputs. -/
theorem C5_classString_cases_witness :
    classStringForProperty (fun s => s) (fun _ => JSVal.bool true) "isUrgent" =
        some (JSVal.str "isUrgent") ∧
    classStringForProperty (fun s => s) (fun _ => JSVal.str "high") "priority" =
        some (JSVal.str "high") ∧
    classStringForProperty (fun s => s) (fun _ => JSVal.null) "isUrgent" = none :=
  ⟨((C5_classString_cases (fun s => s) (fun _ => JSVal.bool true) "isUrgent").1
      rfl).trans (by decide),
   (C5_classString_cases (fun s => s) (fun _ => JSVal.str "high") "priority").2.1
     (JSVal.str "high") rfl (by decide) (by decide) (by decide) (by decide),
   (C5_classString_cases (fun s => s) (fun _ => JSVal.null) "isUrgent").2.2
     (Or.inr (Or.inr rfl))⟩

/-- C6: `_applyClassNameBindings` registers exactly one observer per
`classNameBindings` entry, on the entry's path, in order; and each
firing of the installed observer closure removes the previously applied
class from the element's class list (whenever the newly computed class
differs from it), adds the class computed from the new value whenever
there is one, and records that class as the new `oldClass` (or `null`
when there is none). -/
theorem C6_binding_observer_sync (dash : String → String)
    (getPath : String → JSVal) (bs : List String) (cns : List JSVal)
    (nc oc : Option JSVal) (cs : List String) :
    (applyClassNameBindings dash getPath bs cns).observers = bs ∧
    (∀ c, oc = some c → c.truthy = true →
      (∀ c', nc = some c' → c'.toClassString ≠ c.toClassString) →
      c.toClassString ∉ (observerStep nc oc cs).2) ∧
    (∀ c, nc = some c → c.truthy = true →
      c.toClassString ∈ (observerStep nc oc cs).2) ∧
    ((observerStep nc oc cs).1 =
      match nc with
      | some c => if c.truthy then some c else none
      | none => none) := by
  refine ⟨?_, ?_, ?_, ?_⟩
  · induction bs generalizing cns with
    | nil => rfl
    | cons b bs ih => simp [applyClassNameBindings, ih]
  · intro c hoc htr hne
    subst hoc
    unfold observerStep
    simp only [htr, if_true]
    cases nc with
    | none =>
      simp [removeClass]
    | some c' =>
      have hne' := hne c' rfl
      by_cases h : c'.truthy
      · simp only [h, if_true]
        unfold addClass
        split
        · simp [removeClass]
        · simp [removeClass, Ne.symm hne']
      · simp [h, removeClass]
  · intro c hnc htr
    subst hnc
    unfold observerStep
    simp only [htr, if_true]
    unfold addClass
    split
    · assumption
    · simp
  · unfold observerStep
    cases nc with
    | none => rfl
    | some c =>
      by_cases h : c.truthy <;> simp [h]

/-- Witness for C6 at concrete inputs: one binding installs one
observer; a firing that switches the value of `isUrgent` from the class
`is-urgent` to the class `high` removes the old class and adds the new
one, recording it as `oldClass`. -/
theorem C6_binding_observer_sync_witness :
    (applyClassNameBindings (fun s => s) (fun _ => JSVal.bool true)
      ["isUrgent"] []).observers = ["isUrgent"] ∧
    (JSVal.str "is-urgent").toClassString ∉
      (observerStep (some (JSVal.str "high")) (some (JSVal.str "is-urgent"))
        ["sc-view", "is-urgent"]).2 ∧
    (JSVal.str "high").toClassString ∈
      (observerStep (some (JSVal.str "high")) (some (JSVal.str "is-urgent"))
        ["sc-view", "is-urgent"]).2 ∧
    (observerStep (some (JSVal.str "high")) (some (JSVal.str "is-urgent"))
        ["sc-view", "is-urgent"]).1 = some (JSVal.str "high") :=
  ⟨(C6_binding_observer_sync (fun s => s) (fun _ => JSVal.bool true) ["isUrgent"] []
      (some (JSVal.str "high")) (some (JSVal.str "is-urgent"))
      ["sc-view", "is-urgent"]).1,
   (C6_binding_observer_sync (fun s => s) (fun _ => JSVal.bool true) ["isUrgent"] []
      (some (JSVal.str "high")) (some (JSVal.str "is-urgent"))
      ["sc-view", "is-urgent"]).2.1 (JSVal.str "is-urgent") rfl (by decide)
      (by intro c' h; cases h; decide),
   (C6_binding_observer_sync (fun s => s) (fun _ => JSVal.bool true) ["isUrgent"] []
      (some (JSVal.str "high")) (some (JSVal.str "is-urgent"))
      ["sc-view", "is-urgent"]).2.2.1 (JSVal.str "high") rfl (by decide),
   (C6_binding_observer_sync (fun s => s) (fun _ => JSVal.bool true) ["isUrgent"] []
      (some (JSVal.str "high")) (some (JSVal.str "is-urgent"))
      ["sc-view", "is-urgent"]).2.2.2⟩

/-- Heap reads are unchanged by appending arrays at the end. -/
theorem heapRead_append (l m : List (List String)) (i : Nat)
    (hi : i < l.length) : (l ++ m)[i]? = l[i]? :=
  List.getElem?_append_left hi

/-- Heap reads at another address are unchanged by `pushArr`. -/
theorem heapRead_pushArr_ne (l : List (List String)) (a b : Nat) (x : String)
    (hab : a ≠ b) : (pushArr l a x)[b]? = l[b]? :=
  List.getElem?_set_ne hab

/-- Reads of the three arrays appended at the end of a heap. -/
theorem heapRead_append_three (l : List (List String)) (x y z : List String) :
    (l ++ [x, y, z])[l.length]? = some x ∧
    (l ++ [x, y, z])[l.length + 1]? = some y ∧
    (l ++ [x, y, z])[l.length + 2]? = some z := by
  refine ⟨?_, ?_, ?_⟩ <;>
    rw [List.getElem?_append_right (by omega)] <;>
    simp [Nat.add_sub_cancel_left]

/-- Canonical form of `initArrays` when the prototype addresses are
valid: it appends the three copies at the end of the heap and points the
instance at them. -/
theorem initArrays_eq (h : List (List String)) (p : ProtoArrays)
    (hcb : p.classNameBindings < h.length) (hcn : p.classNames < h.length) :
    initArrays h p =
      (h ++ [h[p.childViews]?.getD [], h[p.classNameBindings]?.getD [],
        h[p.classNames]?.getD []],
       ⟨h.length, h.length + 1, h.length + 2⟩) := by
  have e1 : (h ++ [h[p.childViews]?.getD []])[p.classNameBindings]? =
      h[p.classNameBindings]? := heapRead_append _ _ _ hcb
  have e2 : (h ++ [h[p.childViews]?.getD []] ++
      [h[p.classNameBindings]?.getD []])[p.classNames]? = h[p.classNames]? := by
    rw [List.append_assoc]
    exact heapRead_append _ _ _ hcn
  simp only [initArrays, allocArr, e1, e2]
  simp [List.append_assoc]

/-- C8: `init` repoints `childViews`, `classNameBindings` and
`classNames` at freshly allocated copies of the prototype's arrays:
the copies have the prototype arrays' contents, live at addresses
distinct from the prototype's, and pushing onto any of a first
instance's three arrays leaves both the prototype's arrays and a second
instance's arrays unchanged. -/
theorem C8_init_copies_arrays (h : List (List String)) (p : ProtoArrays)
    (hcv : p.childViews < h.length) (hcb : p.classNameBindings < h.length)
    (hcn : p.classNames < h.length) (a : Nat)
    (ha : a = (initArrays h p).2.childViews ∨
          a = (initArrays h p).2.classNameBindings ∨
          a = (initArrays h p).2.classNames) (x : String) :
    ((initArrays h p).1[(initArrays h p).2.childViews]? = h[p.childViews]? ∧
     (initArrays h p).1[(initArrays h p).2.classNameBindings]? =
       h[p.classNameBindings]? ∧
     (initArrays h p).1[(initArrays h p).2.classNames]? = h[p.classNames]?) ∧
    ((initArrays h p).2.childViews ≠ p.childViews ∧
     (initArrays h p).2.classNameBindings ≠ p.classNameBindings ∧
     (initArrays h p).2.classNames ≠ p.classNames) ∧
    ((pushArr (initArrays (initArrays h p).1 p).1 a x)[p.childViews]? =
       (initArrays (initArrays h p).1 p).1[p.childViews]? ∧
     (pushArr (initArrays (initArrays h p).1 p).1 a x)[p.classNameBindings]? =
       (initArrays (initArrays h p).1 p).1[p.classNameBindings]? ∧
     (pushArr (initArrays (initArrays h p).1 p).1 a x)[p.classNames]? =
       (initArrays (initArrays h p).1 p).1[p.classNames]?) ∧
    ((pushArr (initArrays (initArrays h p).1 p).1 a
        x)[(initArrays (initArrays h p).1 p).2.childViews]? =
       (initArrays (initArrays h p).1
         p).1[(initArrays (initArrays h p).1 p).2.childViews]? ∧
     (pushArr (initArrays (initArrays h p).1 p).1 a
        x)[(initArrays (initArrays h p).1 p).2.classNameBindings]? =
       (initArrays (initArrays h p).1
         p).1[(initArrays (initArrays h p).1 p).2.classNameBindings]? ∧
     (pushArr (initArrays (initArrays h p).1 p).1 a
        x)[(initArrays (initArrays h p).1 p).2.classNames]? =
       (initArrays (initArrays h p).1
         p).1[(initArrays (initArrays h p).1 p).2.classNames]?) := by
  have h1eq := initArrays_eq h p hcb hcn
  have hcb1 : p.classNameBindings <
      (h ++ [h[p.childViews]?.getD [], h[p.classNameBindings]?.getD [],
        h[p.classNames]?.getD []]).length := by
    simp
    omega
  have hcn1 : p.classNames <
      (h ++ [h[p.childViews]?.getD [], h[p.classNameBindings]?.getD [],
        h[p.classNames]?.getD []]).length := by
    simp
    omega
  have h2eq := initArrays_eq _ p hcb1 hcn1
  rw [h1eq] at ha ⊢
  simp only at ha ⊢
  rw [h2eq]
  simp only
  obtain ⟨r1, r2, r3⟩ := heapRead_append_three h (h[p.childViews]?.getD [])
    (h[p.classNameBindings]?.getD []) (h[p.classNames]?.getD [])
  refine ⟨⟨?_, ?_, ?_⟩, ⟨by omega, by omega, by omega⟩,
    ⟨?_, ?_, ?_⟩, ⟨?_, ?_, ?_⟩⟩
  · rw [r1, List.getElem?_eq_getElem hcv]
    simp
  · rw [r2, List.getElem?_eq_getElem hcb]
    simp
  · rw [r3, List.getElem?_eq_getElem hcn]
    simp
  all_goals refine heapRead_pushArr_ne _ _ _ _ ?_
  all_goals try simp only [List.length_append, List.length_cons, List.length_nil]
  all_goals rcases ha with ha | ha | ha
  all_goals omega

/-- Witness for C8 at a concrete heap of three prototype arrays: pushing
onto the first instance's fresh `classNames` array leaves the
prototype's `classNames` array (address 2) unchanged. -/
theorem C8_init_copies_arrays_witness :
    (pushArr (initArrays (initArrays [[], [], ["sc-view"]] ⟨0, 1, 2⟩).1
        ⟨0, 1, 2⟩).1
      (initArrays [[], [], ["sc-view"]] ⟨0, 1, 2⟩).2.classNames
      "extra")[(2 : Nat)]? =
      (initArrays (initArrays [[], [], ["sc-view"]] ⟨0, 1, 2⟩).1
        ⟨0, 1, 2⟩).1[(2 : Nat)]? :=
  (C8_init_copies_arrays [[], [], ["sc-view"]] ⟨0, 1, 2⟩ (by decide) (by decide)
    (by decide) (initArrays [[], [], ["sc-view"]] ⟨0, 1, 2⟩).2.classNames
    (Or.inr (Or.inr rfl)) "extra").2.2.1.2.2

end SCView
